import Mathlib

/-!
Verification of the request/response interception layer of yente
(`src/yente/app.py`): trace-id assignment, advisory user-id extraction,
timing, structured logging, error translation and the catch-all boundary.
The Python module is embedded shallowly: headers become association lists,
the downstream handler becomes an `Except Fault Response` value, the
wall-clock reads and the 128-bit randomness become explicit parameters, and
the structlog contextvars become an explicit binding list threaded through.
-/

namespace Yente

/-- ASCII lowercase letter or digit, the characters a slug may keep. -/
def isAsciiAlnum (c : Char) : Bool :=
  (('a' ≤ c && c ≤ 'z') || ('0' ≤ c && c ≤ '9'))

/-- Splits a lowercased character list into maximal runs of slug characters,
dropping every non-alphanumeric character. `acc` holds the current run,
reversed. -/
def slugWordsAux : List Char → List Char → List (List Char)
  | acc, [] => if acc.isEmpty then [] else [acc.reverse]
  | acc, c :: rest =>
    if isAsciiAlnum c then slugWordsAux (c :: acc) rest
    else if acc.isEmpty then slugWordsAux [] rest
    else acc.reverse :: slugWordsAux [] rest

/-- Modelled from the spec: the external `normality.slugify` library routine,
which is not part of this repository. Per the spec it normalizes a string
into a lowercase ASCII slug, collapsing runs of non-alphanumeric characters
into single separators, and yields nothing when no alphanumeric content
remains. Transliteration of non-ASCII letters is not described by the spec
and non-ASCII characters are treated as separators here. -/
def slugify (s : String) : Option String :=
  let words := slugWordsAux [] (s.data.map Char.toLower)
  if words.isEmpty then none else some (String.mk (List.intercalate ['-'] words))

/-- Request headers as an association list; keys are already lowercased, as
in starlette's `Headers`. -/
abbrev Headers := List (String × String)

/-- `Headers.get`: first value bound to the key, if any. -/
def Headers.get (hs : Headers) (key : String) : Option String :=
  (hs.find? (fun p => p.1 = key)).map (fun p => p.2)

/-- Everything after the first space of `cs`, as in Python's
`s.split(" ", 1)[1]`. -/
def afterFirstSpace (cs : List Char) : List Char :=
  (cs.dropWhile (fun c => c ≠ ' ')).drop 1

/-- Embedding of `get_user_id` (src/yente/app.py lines 21-31): read the
`authorization` header; if it contains a space keep only what follows the
first space; slugify; truncate to 40 characters. -/
def get_user_id (headers : Headers) : Option String :=
  let user_id : Option String := headers.get "authorization"
  let user_id : Option String :=
    match user_id with
    | some s =>
      let s := if ' ' ∈ s.data then String.mk (afterFirstSpace s.data) else s
      slugify s
    | none => none
  match user_id with
  | some s => some (String.mk (s.data.take 40))
  | none => none

/-- Restatement of the advisory user-id derivation in the spec's own words
(section 4.1): absent header yields nothing; otherwise discard everything up
to and including the first space when a space occurs, slugify the remainder,
truncate to the first 40 characters. Used to compare against `get_user_id`. -/
def get_user_id_spec (headers : Headers) : Option String :=
  match headers.get "authorization" with
  | none => none
  | some v =>
    let rem := if ' ' ∈ v.data then String.mk (afterFirstSpace v.data) else v
    (slugify rem).map (fun s => String.mk (s.data.take 40))

/-- One lowercase hexadecimal digit. -/
def hexDigit (n : Nat) : Char :=
  if n < 10 then Char.ofNat (48 + n) else Char.ofNat (87 + n)

/-- The `k` lowercase hex digits of `n`, most significant first. -/
def hexDigits : Nat → Nat → List Char
  | 0, _ => []
  | k + 1, n => hexDigits k (n / 16) ++ [hexDigit (n % 16)]

/-- Python's `uuid.UUID.hex`: the 128-bit integer as 32 lowercase hex
digits. -/
def hex32 (n : Nat) : String :=
  String.mk (hexDigits 32 n)

/-- Python's `uuid4()` applied to 128 random bits `r`: clear the version
nibble (bits 76-79) and set it to 4, clear the two variant bits (62-63) and
set them to binary 10. -/
def uuid4_int (r : Nat) : Nat :=
  ((r % 2 ^ 128) &&& (2 ^ 128 - 1 - 15 * 2 ^ 76 - 3 * 2 ^ 62)) |||
    (4 * 2 ^ 76 + 2 * 2 ^ 62)

/-- `uuid4().hex` for randomness `r`. -/
def uuid4_hex (r : Nat) : String :=
  hex32 (uuid4_int r)

/-- JSON response bodies produced or forwarded by this layer. The layer
itself only builds flat objects of string fields; downstream bodies are kept
as raw content. -/
inductive Body where
  | jsonObj (fields : List (String × String))
  | rawBody (content : String)
deriving DecidableEq, Repr

/-- An HTTP response: status code, body and a mutable header list (keys
lowercased, as in starlette). -/
structure Response where
  status_code : Nat
  body : Body
  headers : List (String × String)
deriving DecidableEq, Repr

/-- Faults that may terminate downstream handling: the two recognized
upstream categories (`elasticsearch.ApiError` with a carried status code and
message, `elasticsearch.TransportError` with a message) and everything else,
identified only by the name of its type. -/
inductive Fault where
  | apiError (status_code : Nat) (message : String)
  | transportError (message : String)
  | other (typeName : String)
deriving DecidableEq, Repr

/-- The printed type name used by `log.exception("Exception during request:
%s" % type(exc))`. -/
def Fault.typeName : Fault → String
  | .apiError _ _ => "ApiError"
  | .transportError _ => "TransportError"
  | .other n => n

/-- Log records emitted by this layer: `log.error` from the two fault
translators, `log.exception` from the middleware's catch-all, and the
structured `log.info(..., action="request", ...)` record. -/
inductive LogEntry where
  | errorLog (message : String)
  | exceptionLog (message : String)
  | requestLog (event : String) (method : String) (path : String)
      (query : String) (agent : Option String) (referer : Option String)
      (code : Nat) (took : Int)
deriving DecidableEq, Repr

/-- Whether a log entry carries `action="request"`. -/
def LogEntry.isRequest : LogEntry → Bool
  | .requestLog _ _ _ _ _ _ _ _ => true
  | _ => false

/-- The `code=` field of an `action="request"` record. -/
def LogEntry.code? : LogEntry → Option Nat
  | .requestLog _ _ _ _ _ _ code _ => some code
  | _ => none

/-- The `took=` field of an `action="request"` record. -/
def LogEntry.took? : LogEntry → Option Int
  | .requestLog _ _ _ _ _ _ _ took => some took
  | _ => none

/-- The structlog contextvars store: a list of bindings, most recent first.
`clear_contextvars` resets it to the empty list. -/
abbrev ContextVars := List (String × Option String)

/-- `bind_contextvars`: push new bindings on top of the ambient store. -/
def bind_contextvars (cv : ContextVars) (bindings : List (String × Option String)) :
    ContextVars :=
  bindings ++ cv

/-- `clear_contextvars`: remove every binding. -/
def clear_contextvars : ContextVars := []

/-- An inbound request, reduced to the fields the interception layer reads:
headers, the optional peer address (`request.client`), and the method, path
and query string used for logging. -/
structure Request where
  headers : Headers
  clientHost : Option String
  method : String
  path : String
  query : String

/-- starlette `MutableHeaders.__setitem__`: replace the first binding of the
key and drop later duplicates, or append when the key is absent. -/
def setHeader : List (String × String) → String → String → List (String × String)
  | [], key, val => [(key, val)]
  | p :: rest, key, val =>
    if p.1 = key then (key, val) :: rest.filter (fun q => q.1 ≠ key)
    else p :: setHeader rest key val

/-- Header lookup on a response, as in starlette `Headers.get`. -/
def Response.getHeader (r : Response) (key : String) : Option String :=
  (r.headers.find? (fun p => p.1 = key)).map (fun p => p.2)

/-- Embedding of `api_error_handler` (src/yente/app.py lines 70-72): the
response it returns together with the `log.error` entry it emits. -/
def api_error_handler (status_code : Nat) (message : String) :
    Response × LogEntry :=
  ({ status_code := status_code, body := .jsonObj [("detail", message)],
     headers := [] },
   .errorLog (s!"Search error {status_code}: " ++ message))

/-- Embedding of `transport_error_handler` (src/yente/app.py lines 75-77). -/
def transport_error_handler (message : String) : Response × LogEntry :=
  ({ status_code := 500, body := .jsonObj [("detail", message)],
     headers := [] },
   .errorLog ("Transport: " ++ message))

/-- The downstream handling seen by the middleware's `call_next`: the
business routers produce a response or raise a fault; the two exception
handlers registered in `create_app` (lines 102-103) run inside `call_next`
and translate the two recognized fault categories into responses, so only
unrecognized faults propagate to the middleware. -/
def call_next (downstream : Except Fault Response) :
    Except Fault (Response × List LogEntry) :=
  match downstream with
  | .ok r => .ok (r, [])
  | .error (.apiError s m) =>
    let (r, l) := api_error_handler s m
    .ok (r, [l])
  | .error (.transportError m) =>
    let (r, l) := transport_error_handler m
    .ok (r, [l])
  | .error f => .error f

/-- The outcome of one middleware invocation: the finalized response, the
contextvars store left behind, and the log entries emitted, in order. -/
structure MWResult where
  response : Response
  contextAfter : ContextVars
  logs : List LogEntry
deriving Repr

/-- Embedding of `request_middleware` (src/yente/app.py lines 34-67). The
two `time.time()` reads become the parameters `start_time` and `now`, the
128 random bits behind `uuid4()` become `rand`, and the ambient contextvars
store on entry becomes `cv`. -/
def request_middleware (request : Request) (downstream : Except Fault Response)
    (rand : Nat) (start_time now : Int) (cv : ContextVars) : MWResult :=
  let user_id := get_user_id request.headers
  let trace_id := uuid4_hex rand
  let client_ip := match request.clientHost with
    | some host => host
    | none => "127.0.0.1"
  let _cvBound := bind_contextvars cv
    [("user_id", user_id), ("trace_id", some trace_id),
     ("client_ip", some client_ip)]
  let (response, downLogs) :=
    match call_next downstream with
    | .ok (r, ls) => (r, ls)
    | .error exc =>
      ({ status_code := 500, body := .jsonObj [("status", "error")],
         headers := [] },
       [LogEntry.exceptionLog ("Exception during request: " ++ exc.typeName)])
  let time_delta := now - start_time
  let response := { response with
    headers := setHeader response.headers "x-trace-id" trace_id }
  let response :=
    match user_id with
    | some uid => { response with
        headers := setHeader response.headers "x-user-id" uid }
    | none => response
  let reqLog := LogEntry.requestLog request.path request.method request.path
    request.query (request.headers.get "user-agent")
    (request.headers.get "referer") response.status_code time_delta
  { response := response,
    contextAfter := clear_contextvars,
    logs := downLogs ++ [reqLog] }

/-! ### Helper lemmas -/

/-- Whether a character is a lowercase hexadecimal digit. -/
def isLowerHexDigit (c : Char) : Bool :=
  (('0' ≤ c && c ≤ '9') || ('a' ≤ c && c ≤ 'f'))

/-- Decimal value of a lowercase hex digit character. -/
def unhexDigit (c : Char) : Nat :=
  if 97 ≤ c.toNat then c.toNat - 87 else c.toNat - 48

/-- Value of a big-endian lowercase hex digit list. -/
def unhexDigits (cs : List Char) : Nat :=
  cs.foldl (fun a c => 16 * a + unhexDigit c) 0

theorem hexDigits_length (k n : Nat) : (hexDigits k n).length = k := by
  induction k generalizing n with
  | zero => rfl
  | succ k ih => simp [hexDigits, ih]

theorem hexDigit_isLowerHexDigit : ∀ d < 16, isLowerHexDigit (hexDigit d) = true := by
  decide

theorem hexDigits_all_lowerHex (k n : Nat) :
    (hexDigits k n).all isLowerHexDigit = true := by
  induction k generalizing n with
  | zero => rfl
  | succ k ih =>
    simp only [hexDigits, List.all_append, ih, Bool.true_and, List.all_cons,
      List.all_nil, Bool.and_true]
    exact hexDigit_isLowerHexDigit _ (Nat.mod_lt _ (by norm_num))

theorem unhexDigit_hexDigit : ∀ d < 16, unhexDigit (hexDigit d) = d := by
  decide

theorem unhexDigits_hexDigits (k n : Nat) :
    unhexDigits (hexDigits k n) = n % 16 ^ k := by
  induction k generalizing n with
  | zero => simp [hexDigits, unhexDigits, Nat.mod_one]
  | succ k ih =>
    have hlt : n % 16 < 16 := Nat.mod_lt _ (by norm_num)
    have hstep : unhexDigits (hexDigits k (n / 16) ++ [hexDigit (n % 16)])
        = 16 * unhexDigits (hexDigits k (n / 16)) + unhexDigit (hexDigit (n % 16)) := by
      simp [unhexDigits, List.foldl_append]
    have hdecomp : n % 16 ^ (k + 1) = 16 * (n / 16 % 16 ^ k) + n % 16 := by
      have hpos : 0 < 16 ^ k := Nat.pos_pow_of_pos k (by norm_num)
      have hm : 16 * (n / 16) % (16 * 16 ^ k) = 16 * (n / 16 % 16 ^ k) :=
        Nat.mul_mod_mul_left 16 (n / 16) (16 ^ k)
      have h1 : n / 16 % 16 ^ k < 16 ^ k := Nat.mod_lt _ hpos
      have hbound : 16 * (n / 16 % 16 ^ k) + n % 16 < 16 * 16 ^ k := by omega
      have hsmall : n % 16 % (16 * 16 ^ k) = n % 16 := Nat.mod_eq_of_lt (by omega)
      calc n % 16 ^ (k + 1)
          = n % (16 * 16 ^ k) := by rw [pow_succ, Nat.mul_comm]
      _ = (16 * (n / 16) + n % 16) % (16 * 16 ^ k) := by rw [Nat.div_add_mod]
      _ = (16 * (n / 16) % (16 * 16 ^ k) + n % 16 % (16 * 16 ^ k)) % (16 * 16 ^ k) := by
            rw [← Nat.add_mod]
      _ = (16 * (n / 16 % 16 ^ k) + n % 16) % (16 * 16 ^ k) := by rw [hm, hsmall]
      _ = 16 * (n / 16 % 16 ^ k) + n % 16 := Nat.mod_eq_of_lt hbound
    rw [hexDigits, hstep, ih, unhexDigit_hexDigit _ hlt, hdecomp]

theorem uuid4_int_lt (r : Nat) : uuid4_int r < 2 ^ 128 := by
  have h1 : (r % 2 ^ 128) &&& (2 ^ 128 - 1 - 15 * 2 ^ 76 - 3 * 2 ^ 62) < 2 ^ 128 :=
    Nat.lt_of_le_of_lt Nat.and_le_left (Nat.mod_lt _ (by norm_num))
  exact Nat.or_lt_two_pow h1 (by norm_num)

theorem hex32_inj {n m : Nat} (hn : n < 2 ^ 128) (hm : m < 2 ^ 128)
    (h : hex32 n = hex32 m) : n = m := by
  have h' : unhexDigits (hexDigits 32 n) = unhexDigits (hexDigits 32 m) :=
    congrArg unhexDigits (congrArg String.data h)
  rw [unhexDigits_hexDigits, unhexDigits_hexDigits] at h'
  have e : (16 : Nat) ^ 32 = 2 ^ 128 := by norm_num
  rw [e, Nat.mod_eq_of_lt hn, Nat.mod_eq_of_lt hm] at h'
  exact h'

theorem uuid4_hex_ne {r1 r2 : Nat} (h : uuid4_int r1 ≠ uuid4_int r2) :
    uuid4_hex r1 ≠ uuid4_hex r2 :=
  fun he => h (hex32_inj (uuid4_int_lt r1) (uuid4_int_lt r2) he)

theorem uuid4_hex_length (r : Nat) : (uuid4_hex r).length = 32 := by
  show (hexDigits 32 (uuid4_int r)).length = 32
  exact hexDigits_length 32 _

theorem uuid4_hex_all_lowerHex (r : Nat) :
    (uuid4_hex r).data.all isLowerHexDigit = true :=
  hexDigits_all_lowerHex 32 _

theorem find?_setHeader_same (hs : List (String × String)) (k v : String) :
    (setHeader hs k v).find? (fun p => p.1 = k) = some (k, v) := by
  induction hs with
  | nil => simp [setHeader]
  | cons p rest ih =>
    by_cases h : p.1 = k
    · simp [setHeader, h]
    · simp [setHeader, h, ih]

theorem find?_filter_ne {k k' : String} (hne : k' ≠ k) (l : List (String × String)) :
    (l.filter (fun q => q.1 ≠ k)).find? (fun p => p.1 = k')
      = l.find? (fun p => p.1 = k') := by
  induction l with
  | nil => rfl
  | cons p rest ih =>
    by_cases h : p.1 = k
    · have hp : ¬ (p.1 = k') := fun hk => hne (by rw [← hk]; exact h)
      rw [List.filter_cons_of_neg (by simp [h]),
        List.find?_cons_of_neg _ (by simp [hp]), ih]
    · rw [List.filter_cons_of_pos (by simp [h])]
      by_cases h' : p.1 = k'
      · rw [List.find?_cons_of_pos _ (by simp [h']),
          List.find?_cons_of_pos _ (by simp [h'])]
      · rw [List.find?_cons_of_neg _ (by simp [h']),
          List.find?_cons_of_neg _ (by simp [h']), ih]

theorem find?_setHeader_ne {k k' : String} (hne : k' ≠ k)
    (hs : List (String × String)) (v : String) :
    (setHeader hs k v).find? (fun p => p.1 = k')
      = hs.find? (fun p => p.1 = k') := by
  induction hs with
  | nil =>
    show List.find? (fun p => p.1 = k') [(k, v)] = none
    rw [List.find?_cons_of_neg _ (by simp [Ne.symm hne]), List.find?_nil]
  | cons p rest ih =>
    by_cases h : p.1 = k
    · have hp : ¬ (p.1 = k') := fun hk => hne (by rw [← hk]; exact h)
      show List.find? (fun p => p.1 = k')
          (if p.1 = k then (k, v) :: rest.filter (fun q => q.1 ≠ k)
           else p :: setHeader rest k v)
        = List.find? (fun p => p.1 = k') (p :: rest)
      rw [if_pos h, List.find?_cons_of_neg _ (by simp [Ne.symm hne]),
        List.find?_cons_of_neg _ (by simp [hp]), find?_filter_ne hne]
    · show List.find? (fun p => p.1 = k')
          (if p.1 = k then (k, v) :: rest.filter (fun q => q.1 ≠ k)
           else p :: setHeader rest k v)
        = List.find? (fun p => p.1 = k') (p :: rest)
      rw [if_neg h]
      by_cases h' : p.1 = k'
      · rw [List.find?_cons_of_pos _ (by simp [h']),
          List.find?_cons_of_pos _ (by simp [h'])]
      · rw [List.find?_cons_of_neg _ (by simp [h']),
          List.find?_cons_of_neg _ (by simp [h']), ih]

theorem mw_trace_header (request : Request) (downstream : Except Fault Response)
    (rand : Nat) (t0 t1 : Int) (cv : ContextVars) :
    (request_middleware request downstream rand t0 t1 cv).response.getHeader "x-trace-id"
      = some (uuid4_hex rand) := by
  have hne : ("x-trace-id" : String) ≠ "x-user-id" := by decide
  cases hu : get_user_id request.headers with
  | none =>
    cases downstream with
    | ok r =>
      simp [request_middleware, call_next, hu, Response.getHeader, find?_setHeader_same]
    | error f =>
      cases f <;>
        simp [request_middleware, call_next, hu, Response.getHeader,
          api_error_handler, transport_error_handler, find?_setHeader_same]
  | some uid =>
    cases downstream with
    | ok r =>
      simp [request_middleware, call_next, hu, Response.getHeader,
        find?_setHeader_ne hne, find?_setHeader_same]
    | error f =>
      cases f <;>
        simp [request_middleware, call_next, hu, Response.getHeader,
          api_error_handler, transport_error_handler,
          find?_setHeader_ne hne, find?_setHeader_same]

theorem mw_contextAfter (request : Request) (downstream : Except Fault Response)
    (rand : Nat) (t0 t1 : Int) (cv : ContextVars) :
    (request_middleware request downstream rand t0 t1 cv).contextAfter
      = clear_contextvars := by
  cases hu : get_user_id request.headers with
  | none =>
    cases downstream with
    | ok r => simp [request_middleware, call_next, hu]
    | error f =>
      cases f <;>
        simp [request_middleware, call_next, hu, api_error_handler,
          transport_error_handler]
  | some uid =>
    cases downstream with
    | ok r => simp [request_middleware, call_next, hu]
    | error f =>
      cases f <;>
        simp [request_middleware, call_next, hu, api_error_handler,
          transport_error_handler]

theorem mw_core_ok (request : Request) (r : Response) (rand : Nat) (t0 t1 : Int)
    (cv : ContextVars) :
    (request_middleware request (.ok r) rand t0 t1 cv).response.status_code
        = r.status_code
      ∧ (request_middleware request (.ok r) rand t0 t1 cv).response.body = r.body := by
  cases hu : get_user_id request.headers <;>
    simp [request_middleware, call_next, hu]

theorem mw_core_apiError (request : Request) (s : Nat) (m : String) (rand : Nat)
    (t0 t1 : Int) (cv : ContextVars) :
    (request_middleware request (.error (.apiError s m)) rand t0 t1 cv).response.status_code
        = s
      ∧ (request_middleware request (.error (.apiError s m)) rand t0 t1 cv).response.body
        = .jsonObj [("detail", m)] := by
  cases hu : get_user_id request.headers <;>
    simp [request_middleware, call_next, hu, api_error_handler]

theorem mw_core_transportError (request : Request) (m : String) (rand : Nat)
    (t0 t1 : Int) (cv : ContextVars) :
    (request_middleware request (.error (.transportError m)) rand t0 t1 cv).response.status_code
        = 500
      ∧ (request_middleware request (.error (.transportError m)) rand t0 t1 cv).response.body
        = .jsonObj [("detail", m)] := by
  cases hu : get_user_id request.headers <;>
    simp [request_middleware, call_next, hu, transport_error_handler]

theorem mw_core_other (request : Request) (n : String) (rand : Nat)
    (t0 t1 : Int) (cv : ContextVars) :
    (request_middleware request (.error (.other n)) rand t0 t1 cv).response.status_code
        = 500
      ∧ (request_middleware request (.error (.other n)) rand t0 t1 cv).response.body
        = .jsonObj [("status", "error")] := by
  cases hu : get_user_id request.headers <;>
    simp [request_middleware, call_next, hu]

theorem mw_request_log (request : Request) (downstream : Except Fault Response)
    (rand : Nat) (t0 t1 : Int) (cv : ContextVars) :
    (request_middleware request downstream rand t0 t1 cv).logs.countP LogEntry.isRequest
        = 1
      ∧ (request_middleware request downstream rand t0 t1 cv).logs.getLast?
        = some (.requestLog request.path request.method request.path request.query
            (request.headers.get "user-agent") (request.headers.get "referer")
            (request_middleware request downstream rand t0 t1 cv).response.status_code
            (t1 - t0)) := by
  cases hu : get_user_id request.headers with
  | none =>
    cases downstream with
    | ok r =>
      simp [request_middleware, call_next, hu, List.countP_cons, LogEntry.isRequest]
    | error f =>
      cases f <;>
        simp [request_middleware, call_next, hu, api_error_handler,
          transport_error_handler, List.countP_cons, LogEntry.isRequest]
  | some uid =>
    cases downstream with
    | ok r =>
      simp [request_middleware, call_next, hu, List.countP_cons, LogEntry.isRequest]
    | error f =>
      cases f <;>
        simp [request_middleware, call_next, hu, api_error_handler,
          transport_error_handler, List.countP_cons, LogEntry.isRequest]

/-- The response the middleware works with before attaching headers: the
downstream response, the translated response for a recognized fault, or the
synthesized generic 500. Matches the `try`/`except` block of
`request_middleware` together with the registered exception handlers. -/
def coreResponse (downstream : Except Fault Response) : Response :=
  match call_next downstream with
  | .ok (r, _) => r
  | .error _ =>
    { status_code := 500, body := .jsonObj [("status", "error")], headers := [] }

theorem mw_user_header_some (request : Request) (downstream : Except Fault Response)
    (rand : Nat) (t0 t1 : Int) (cv : ContextVars) (uid : String)
    (hu : get_user_id request.headers = some uid) :
    (request_middleware request downstream rand t0 t1 cv).response.getHeader "x-user-id"
      = some uid := by
  cases downstream with
  | ok r =>
    simp [request_middleware, call_next, hu, Response.getHeader, find?_setHeader_same]
  | error f =>
    cases f <;>
      simp [request_middleware, call_next, hu, Response.getHeader,
        api_error_handler, transport_error_handler, find?_setHeader_same]

theorem mw_user_header_none (request : Request) (downstream : Except Fault Response)
    (rand : Nat) (t0 t1 : Int) (cv : ContextVars)
    (hu : get_user_id request.headers = none) :
    (request_middleware request downstream rand t0 t1 cv).response.getHeader "x-user-id"
      = (coreResponse downstream).getHeader "x-user-id" := by
  have hne : ("x-user-id" : String) ≠ "x-trace-id" := by decide
  cases downstream with
  | ok r =>
    simp [request_middleware, call_next, coreResponse, hu, Response.getHeader,
      find?_setHeader_ne hne]
  | error f =>
    cases f <;>
      simp [request_middleware, call_next, coreResponse, hu, Response.getHeader,
        api_error_handler, transport_error_handler, find?_setHeader_ne hne]

theorem slugWordsAux_nil_of_all_not (cs : List Char)
    (h : ∀ c ∈ cs, isAsciiAlnum c = false) : slugWordsAux [] cs = [] := by
  induction cs with
  | nil => rfl
  | cons c rest ih =>
    have hc : isAsciiAlnum c = false := h c (by simp)
    simp only [slugWordsAux, hc, Bool.false_eq_true, if_false, List.isEmpty_nil,
      if_true]
    exact ih (fun a ha => h a (by simp [ha]))

theorem slugify_none (s : String)
    (h : s.data.all (fun c => !(isAsciiAlnum c.toLower)) = true) :
    slugify s = none := by
  have hall : ∀ c ∈ s.data.map Char.toLower, isAsciiAlnum c = false := by
    intro c hc
    obtain ⟨a, ha, rfl⟩ := List.mem_map.mp hc
    have := List.all_eq_true.mp h a ha
    simpa using this
  simp [slugify, slugWordsAux_nil_of_all_not _ hall]

theorem get_user_id_none_of_no_alnum (hs : Headers) (v : String)
    (hv : hs.get "authorization" = some v)
    (h : (if ' ' ∈ v.data then afterFirstSpace v.data else v.data).all
        (fun c => !(isAsciiAlnum c.toLower)) = true) :
    get_user_id hs = none := by
  by_cases hsp : ' ' ∈ v.data
  · rw [if_pos hsp] at h
    have hs : slugify (String.mk (afterFirstSpace v.data)) = none := slugify_none _ h
    simp [get_user_id, hv, hsp, hs]
  · rw [if_neg hsp] at h
    have hs : slugify v = none := slugify_none _ h
    simp [get_user_id, hv, hsp, hs]

theorem get_user_id_eq_spec (hs : Headers) : get_user_id hs = get_user_id_spec hs := by
  cases hv : hs.get "authorization" with
  | none => simp [get_user_id, get_user_id_spec, hv]
  | some v =>
    cases hslug : slugify (if ' ' ∈ v.data then String.mk (afterFirstSpace v.data) else v) with
    | none => simp [get_user_id, get_user_id_spec, hv, hslug]
    | some s => simp [get_user_id, get_user_id_spec, hv, hslug]

theorem get_user_id_length (hs : Headers) (u : String)
    (h : get_user_id hs = some u) : u.length ≤ 40 := by
  cases hv : hs.get "authorization" with
  | none => simp [get_user_id, hv] at h
  | some v =>
    cases hslug : slugify (if ' ' ∈ v.data then String.mk (afterFirstSpace v.data) else v) with
    | none => simp [get_user_id, hv, hslug] at h
    | some s =>
      simp [get_user_id, hv, hslug] at h
      have : u.length = (s.data.take 40).length := by rw [← h]; rfl
      rw [this, List.length_take]
      exact Nat.min_le_left _ _

theorem mw_status_body_stable (request : Request) (downstream : Except Fault Response)
    (r1 r2 : Nat) (t0 t1 t0' t1' : Int) (cv cv' : ContextVars) :
    (request_middleware request downstream r1 t0 t1 cv).response.status_code
        = (request_middleware request downstream r2 t0' t1' cv').response.status_code
      ∧ (request_middleware request downstream r1 t0 t1 cv).response.body
        = (request_middleware request downstream r2 t0' t1' cv').response.body := by
  cases downstream with
  | ok r =>
    exact ⟨((mw_core_ok request r r1 t0 t1 cv).1).trans
        ((mw_core_ok request r r2 t0' t1' cv').1).symm,
      ((mw_core_ok request r r1 t0 t1 cv).2).trans
        ((mw_core_ok request r r2 t0' t1' cv').2).symm⟩
  | error f =>
    cases f with
    | apiError s m =>
      exact ⟨((mw_core_apiError request s m r1 t0 t1 cv).1).trans
          ((mw_core_apiError request s m r2 t0' t1' cv').1).symm,
        ((mw_core_apiError request s m r1 t0 t1 cv).2).trans
          ((mw_core_apiError request s m r2 t0' t1' cv').2).symm⟩
    | transportError m =>
      exact ⟨((mw_core_transportError request m r1 t0 t1 cv).1).trans
          ((mw_core_transportError request m r2 t0' t1' cv').1).symm,
        ((mw_core_transportError request m r1 t0 t1 cv).2).trans
          ((mw_core_transportError request m r2 t0' t1' cv').2).symm⟩
    | other n =>
      exact ⟨((mw_core_other request n r1 t0 t1 cv).1).trans
          ((mw_core_other request n r2 t0' t1' cv').1).symm,
        ((mw_core_other request n r1 t0 t1 cv).2).trans
          ((mw_core_other request n r2 t0' t1' cv').2).symm⟩

/-! ### Claim theorems -/

/-- Claim C1: for every request, regardless of outcome (normal downstream
response, recognized upstream fault translated by the registered handlers,
or unhandled fault caught by the middleware), the final response carries an
`x-trace-id` header whose value is the trace id freshly generated for that
request, a 32-character lowercase hexadecimal string. `request_middleware`
is a total function into `MWResult`, so no fault escapes it. -/
theorem claim_C1 (request : Request) (downstream : Except Fault Response)
    (rand : Nat) (t0 t1 : Int) (cv : ContextVars) :
    (request_middleware request downstream rand t0 t1 cv).response.getHeader "x-trace-id"
        = some (uuid4_hex rand)
      ∧ (uuid4_hex rand).length = 32
      ∧ (uuid4_hex rand).data.all isLowerHexDigit = true :=
  ⟨mw_trace_header request downstream rand t0 t1 cv, uuid4_hex_length rand,
    uuid4_hex_all_lowerHex rand⟩

/-- Claim C2: when downstream handling raises a fault that is not one of the
two recognized upstream categories, the middleware catches it, the response
status is 500, the body is exactly the JSON object with the single field
`status = "error"`, and the trace id header is still present. -/
theorem claim_C2 (request : Request) (n : String) (rand : Nat) (t0 t1 : Int)
    (cv : ContextVars) :
    (request_middleware request (.error (.other n)) rand t0 t1 cv).response.status_code
        = 500
      ∧ (request_middleware request (.error (.other n)) rand t0 t1 cv).response.body
        = .jsonObj [("status", "error")]
      ∧ (request_middleware request (.error (.other n)) rand t0 t1 cv).response.getHeader
          "x-trace-id" = some (uuid4_hex rand) :=
  ⟨(mw_core_other request n rand t0 t1 cv).1, (mw_core_other request n rand t0 t1 cv).2,
    mw_trace_header request _ rand t0 t1 cv⟩

/-- Claim C3: a downstream `ApiError` yields the fault's carried status code
with body `detail = message`, a downstream `TransportError` yields status
500 with body `detail = message`, and in both cases the type-specific
translation takes precedence over the generic fallback body
`status = "error"`. -/
theorem claim_C3 (request : Request) (rand : Nat) (t0 t1 : Int) (cv : ContextVars) :
    (∀ s m,
      (request_middleware request (.error (.apiError s m)) rand t0 t1 cv).response.status_code
          = s
        ∧ (request_middleware request (.error (.apiError s m)) rand t0 t1 cv).response.body
          = .jsonObj [("detail", m)]
        ∧ (request_middleware request (.error (.apiError s m)) rand t0 t1 cv).response.body
          ≠ .jsonObj [("status", "error")])
      ∧ (∀ m,
        (request_middleware request (.error (.transportError m)) rand t0 t1 cv).response.status_code
            = 500
          ∧ (request_middleware request (.error (.transportError m)) rand t0 t1 cv).response.body
            = .jsonObj [("detail", m)]
          ∧ (request_middleware request (.error (.transportError m)) rand t0 t1 cv).response.body
            ≠ .jsonObj [("status", "error")]) := by
  constructor
  · intro s m
    refine ⟨(mw_core_apiError request s m rand t0 t1 cv).1,
      (mw_core_apiError request s m rand t0 t1 cv).2, ?_⟩
    rw [(mw_core_apiError request s m rand t0 t1 cv).2]
    simp
  · intro m
    refine ⟨(mw_core_transportError request m rand t0 t1 cv).1,
      (mw_core_transportError request m rand t0 t1 cv).2, ?_⟩
    rw [(mw_core_transportError request m rand t0 t1 cv).2]
    simp

/-- Claim C3 witness: the spec's two worked examples, a 404 `ApiError` with
message "not found" and a `TransportError` with message "connection
refused", translated on a concrete request. -/
theorem claim_C3_witness :
    (request_middleware ⟨[], none, "GET", "/", ""⟩
        (.error (.apiError 404 "not found")) 0 1 2 []).response.status_code = 404
      ∧ (request_middleware ⟨[], none, "GET", "/", ""⟩
          (.error (.apiError 404 "not found")) 0 1 2 []).response.body
        = .jsonObj [("detail", "not found")]
      ∧ (request_middleware ⟨[], none, "GET", "/", ""⟩
          (.error (.transportError "connection refused")) 0 1 2 []).response.status_code
        = 500
      ∧ (request_middleware ⟨[], none, "GET", "/", ""⟩
          (.error (.transportError "connection refused")) 0 1 2 []).response.body
        = .jsonObj [("detail", "connection refused")] :=
  ⟨((claim_C3 ⟨[], none, "GET", "/", ""⟩ 0 1 2 []).1 404 "not found").1,
    ((claim_C3 ⟨[], none, "GET", "/", ""⟩ 0 1 2 []).1 404 "not found").2.1,
    ((claim_C3 ⟨[], none, "GET", "/", ""⟩ 0 1 2 []).2 "connection refused").1,
    ((claim_C3 ⟨[], none, "GET", "/", ""⟩ 0 1 2 []).2 "connection refused").2.1⟩

/-- Claim C4: the advisory user id derivation agrees with the spec's
description (no header yields no user id; otherwise drop everything up to
and including the first space when one occurs, slugify, truncate to 40
characters), matches the spec's worked example, and every derived user id
has length at most 40. -/
theorem claim_C4 (hs : Headers) :
    get_user_id hs = get_user_id_spec hs
      ∧ (hs.get "authorization" = none → get_user_id hs = none)
      ∧ (∀ u, get_user_id hs = some u → u.length ≤ 40) := by
  refine ⟨get_user_id_eq_spec hs, ?_, fun u h => get_user_id_length hs u h⟩
  intro hnone
  simp [get_user_id, hnone]

/-- Claim C4 witness: on the spec's example header the derivation yields
`john-doe`; with no header it yields nothing; the bound holds at 8 ≤ 40. -/
theorem claim_C4_witness :
    get_user_id [("authorization", "Bearer John Doe!!")] = some "john-doe"
      ∧ get_user_id [] = none
      ∧ ("john-doe" : String).length ≤ 40 :=
  ⟨by decide, (claim_C4 []).2.1 (by decide),
    (claim_C4 [("authorization", "Bearer John Doe!!")]).2.2 "john-doe" (by decide)⟩

/-- Claim C5: the ambient contextvars store handed back by the middleware is
the cleared store, on every exit path: both for a normal downstream response
and for every fault outcome. -/
theorem claim_C5 (request : Request) (downstream : Except Fault Response)
    (rand : Nat) (t0 t1 : Int) (cv : ContextVars) :
    (request_middleware request downstream rand t0 t1 cv).contextAfter
        = clear_contextvars
      ∧ clear_contextvars = ([] : ContextVars) :=
  ⟨mw_contextAfter request downstream rand t0 t1 cv, rfl⟩

/-- Claim C6: exactly one `action="request"` log record is emitted per
request, it is the last record (emitted after the response is finalized),
and the status code it carries equals the final response's status code on
every path, including the generic 500 fallback. -/
theorem claim_C6 (request : Request) (downstream : Except Fault Response)
    (rand : Nat) (t0 t1 : Int) (cv : ContextVars) :
    (request_middleware request downstream rand t0 t1 cv).logs.countP LogEntry.isRequest
        = 1
      ∧ ((request_middleware request downstream rand t0 t1 cv).logs.getLast?.map
          LogEntry.isRequest) = some true
      ∧ ((request_middleware request downstream rand t0 t1 cv).logs.getLast?.bind
          LogEntry.code?)
        = some (request_middleware request downstream rand t0 t1 cv).response.status_code := by
  obtain ⟨h1, h2⟩ := mw_request_log request downstream rand t0 t1 cv
  exact ⟨h1, by rw [h2]; rfl, by rw [h2]; rfl⟩

/-- Claim C7: running the middleware twice on the same request with the same
deterministic downstream outcome but different random draws yields identical
status codes and identical bodies, while the `x-trace-id` headers differ
whenever the two drawn uuids differ (the trace id is fresh randomness, never
derived from the request). -/
theorem claim_C7 (request : Request) (downstream : Except Fault Response)
    (r1 r2 : Nat) (t0 t1 t0' t1' : Int) (cv cv' : ContextVars)
    (h : uuid4_int r1 ≠ uuid4_int r2) :
    (request_middleware request downstream r1 t0 t1 cv).response.status_code
        = (request_middleware request downstream r2 t0' t1' cv').response.status_code
      ∧ (request_middleware request downstream r1 t0 t1 cv).response.body
        = (request_middleware request downstream r2 t0' t1' cv').response.body
      ∧ (request_middleware request downstream r1 t0 t1 cv).response.getHeader "x-trace-id"
        ≠ (request_middleware request downstream r2 t0' t1' cv').response.getHeader
            "x-trace-id" := by
  refine ⟨(mw_status_body_stable request downstream r1 r2 t0 t1 t0' t1' cv cv').1,
    (mw_status_body_stable request downstream r1 r2 t0 t1 t0' t1' cv cv').2, ?_⟩
  rw [mw_trace_header request downstream r1 t0 t1 cv,
    mw_trace_header request downstream r2 t0' t1' cv']
  intro he
  exact uuid4_hex_ne h (Option.some_injective _ he)

/-- Claim C7 witness: a concrete request run twice with random draws 0 and 1
gives equal statuses and bodies and distinct trace id headers. -/
theorem claim_C7_witness :
    uuid4_int 0 ≠ uuid4_int 1
      ∧ ((request_middleware ⟨[], none, "GET", "/search", "q=x"⟩
            (.ok ⟨200, .rawBody "ok", []⟩) 0 3 5 []).response.status_code
          = (request_middleware ⟨[], none, "GET", "/search", "q=x"⟩
              (.ok ⟨200, .rawBody "ok", []⟩) 1 4 9 []).response.status_code
        ∧ (request_middleware ⟨[], none, "GET", "/search", "q=x"⟩
            (.ok ⟨200, .rawBody "ok", []⟩) 0 3 5 []).response.body
          = (request_middleware ⟨[], none, "GET", "/search", "q=x"⟩
              (.ok ⟨200, .rawBody "ok", []⟩) 1 4 9 []).response.body
        ∧ (request_middleware ⟨[], none, "GET", "/search", "q=x"⟩
            (.ok ⟨200, .rawBody "ok", []⟩) 0 3 5 []).response.getHeader "x-trace-id"
          ≠ (request_middleware ⟨[], none, "GET", "/search", "q=x"⟩
              (.ok ⟨200, .rawBody "ok", []⟩) 1 4 9 []).response.getHeader "x-trace-id") :=
  ⟨by decide,
    claim_C7 ⟨[], none, "GET", "/search", "q=x"⟩ (.ok ⟨200, .rawBody "ok", []⟩)
      0 1 3 5 4 9 [] [] (by decide)⟩

/-- Claim C8 counterexample: the middleware reads `time.time()`, a wall
clock that may step backwards between the two reads; with readings 1 then 0
the logged `took` is -1, which is negative, refuting "the recorded
elapsed_seconds is never negative". -/
theorem claim_C8_counterexample :
    ((request_middleware ⟨[], none, "GET", "/", ""⟩ (.ok ⟨200, .rawBody "ok", []⟩)
        0 1 0 []).logs.getLast?.bind LogEntry.took?) = some (-1)
      ∧ (-1 : Int) < 0 :=
  ⟨by decide, by decide⟩

/-- Claim C8 amended: the start time is read from the wall clock before
downstream handling and the logged elapsed time equals now minus start, so
it is nonnegative whenever the second clock reading is not earlier than the
first; a backwards clock step can make it negative. -/
theorem claim_C8_amended (request : Request) (downstream : Except Fault Response)
    (rand : Nat) (t0 t1 : Int) (cv : ContextVars) :
    ((request_middleware request downstream rand t0 t1 cv).logs.getLast?.bind
        LogEntry.took?) = some (t1 - t0)
      ∧ (t0 ≤ t1 →
        ∀ d, ((request_middleware request downstream rand t0 t1 cv).logs.getLast?.bind
            LogEntry.took?) = some d → 0 ≤ d) := by
  obtain ⟨_, h2⟩ := mw_request_log request downstream rand t0 t1 cv
  have htook : ((request_middleware request downstream rand t0 t1 cv).logs.getLast?.bind
      LogEntry.took?) = some (t1 - t0) := by rw [h2]; rfl
  refine ⟨htook, fun hle d hd => ?_⟩
  rw [htook] at hd
  have : d = t1 - t0 := by injection hd.symm
  omega

/-- Claim C8 amended witness: with clock readings 2 then 7 the logged
elapsed time is 5 and is nonnegative. -/
theorem claim_C8_amended_witness :
    ((request_middleware ⟨[], none, "GET", "/", ""⟩ (.ok ⟨200, .rawBody "ok", []⟩)
        0 2 7 []).logs.getLast?.bind LogEntry.took?) = some 5
      ∧ (0 : Int) ≤ 5 :=
  ⟨(claim_C8_amended ⟨[], none, "GET", "/", ""⟩ (.ok ⟨200, .rawBody "ok", []⟩)
      0 2 7 []).1,
    (claim_C8_amended ⟨[], none, "GET", "/", ""⟩ (.ok ⟨200, .rawBody "ok", []⟩)
      0 2 7 []).2 (by decide) 5
      (claim_C8_amended ⟨[], none, "GET", "/", ""⟩ (.ok ⟨200, .rawBody "ok", []⟩)
        0 2 7 []).1⟩

/-- Claim C10: when the `authorization` header is present but its value,
after stripping the scheme prefix, contains no alphanumeric characters,
slugification yields nothing, no user id is derived, and the response
carries no `x-user-id` header (given the downstream response itself carries
none). -/
theorem claim_C10 (request : Request) (downstream : Except Fault Response)
    (rand : Nat) (t0 t1 : Int) (cv : ContextVars) (v : String)
    (hv : request.headers.get "authorization" = some v)
    (hna : (if ' ' ∈ v.data then afterFirstSpace v.data else v.data).all
        (fun c => !(isAsciiAlnum c.toLower)) = true)
    (hcore : (coreResponse downstream).getHeader "x-user-id" = none) :
    get_user_id request.headers = none
      ∧ (request_middleware request downstream rand t0 t1 cv).response.getHeader "x-user-id"
        = none := by
  have h0 := get_user_id_none_of_no_alnum request.headers v hv hna
  exact ⟨h0, (mw_user_header_none request downstream rand t0 t1 cv h0).trans hcore⟩

/-- Claim C10 witness: header `authorization: Bearer !!!` is present, yields
no user id, and the fault-path response carries no `x-user-id` header. -/
theorem claim_C10_witness :
    get_user_id [("authorization", "Bearer !!!")] = none
      ∧ (request_middleware ⟨[("authorization", "Bearer !!!")], none, "GET", "/", ""⟩
          (.error (.other "ValueError")) 0 1 2 []).response.getHeader "x-user-id"
        = none :=
  claim_C10 ⟨[("authorization", "Bearer !!!")], none, "GET", "/", ""⟩
    (.error (.other "ValueError")) 0 1 2 [] "Bearer !!!" (by decide) (by decide) (by decide)

end Yente
